import Mathlib

set_option maxRecDepth 8192

/-!
Verification of the PCSX2 input-recording subsystem (sonicfind fork):
the controller-state codec (`PadData.cpp`), the frame-indexed movie file
(`InputRecordingFile.cpp`) and the recording orchestrator
(`InputRecording.cpp`) are shallowly embedded and the spec's claims about
them are settled as theorems.

Machine integers are modelled as `Nat`/`Int` with explicit truncation
where the C++ performs one; file contents are byte lists; `FILE*` I/O is
modelled by success/failure outcomes on those lists.
-/

namespace PCSX2

/-! ## Controller codec (`PadData.cpp`)

`PadData.h` is not part of the extracted sources; the `BufferIndex`
enumeration values and the `ButtonResolver` bitmasks below follow
`PadData.cpp`'s own switches: the 18-slot `BufferIndex` maps the two
pressed-flag bytes, the four analog-axis bytes and the twelve pressure
bytes (`RightPressure` through `R2Pressure`) to offsets 0-17 in the order
the 18 switch cases fix (the version-1 file layout's hard-coded 36-byte
block for 2 pads confirms 18 bytes per pad), and each button of a group
owns one distinct bit of that group's byte (active-low). -/

/-- Modelled from the spec: `ButtonResolver` bitmasks of group one
(`PadData.h` is missing from the sources); each button owns one bit. -/
def maskLEFT : Nat := 128
def maskDOWN : Nat := 64
def maskRIGHT : Nat := 32
def maskUP : Nat := 16
def maskSTART : Nat := 8
def maskR3 : Nat := 4
def maskL3 : Nat := 2
def maskSELECT : Nat := 1

/-- Modelled from the spec: `ButtonResolver` bitmasks of group two. -/
def maskSQUARE : Nat := 128
def maskCROSS : Nat := 64
def maskCIRCLE : Nat := 32
def maskTRIANGLE : Nat := 16
def maskR1 : Nat := 8
def maskL1 : Nat := 4
def maskR2 : Nat := 2
def maskL2 : Nat := 1

/-- Decoded state of one controller (`PadData`): 16 button flags, four
analog-axis bytes and twelve pressure bytes. -/
structure PadData where
  m_leftPressed : Bool
  m_downPressed : Bool
  m_rightPressed : Bool
  m_upPressed : Bool
  m_start : Bool
  m_r3 : Bool
  m_l3 : Bool
  m_select : Bool
  m_squarePressed : Bool
  m_crossPressed : Bool
  m_circlePressed : Bool
  m_trianglePressed : Bool
  m_r1Pressed : Bool
  m_l1Pressed : Bool
  m_r2Pressed : Bool
  m_l2Pressed : Bool
  m_rightAnalogX : Nat
  m_rightAnalogY : Nat
  m_leftAnalogX : Nat
  m_leftAnalogY : Nat
  m_rightPressure : Nat
  m_leftPressure : Nat
  m_upPressure : Nat
  m_downPressure : Nat
  m_trianglePressure : Nat
  m_circlePressure : Nat
  m_crossPressure : Nat
  m_squarePressure : Nat
  m_l1Pressure : Nat
  m_r1Pressure : Nat
  m_l2Pressure : Nat
  m_r2Pressure : Nat
  deriving Repr, DecidableEq

/-- A `PadData` value with every flag clear and every byte zero. -/
def padDataZero : PadData :=
  ⟨false, false, false, false, false, false, false, false,
   false, false, false, false, false, false, false, false,
   0, 0, 0, 0, 0, 0, 0, 0, 0, 0, 0, 0, 0, 0, 0, 0⟩

/-- `PadData::IsButtonPressed`: the wire convention is active-low, so the
byte is complemented (as a u8) before the button's bitmask is tested. -/
def PadData.IsButtonPressed (buttonBitmask : Nat) (bufVal : Nat) : Bool :=
  ((bufVal ^^^ 255) &&& buttonBitmask) > 0

/-- `PadData::BitmaskOrZero`. -/
def PadData.BitmaskOrZero (pressed : Bool) (buttonBitmask : Nat) : Nat :=
  if pressed then buttonBitmask else 0

/-- `PadData::UpdateControllerData`: decode the byte at `bufIndex` into
the pad state; an index outside the 18 slots is a no-op. -/
def PadData.UpdateControllerData (pd : PadData) (bufIndex : Nat) (bufVal : Nat) :
    PadData :=
  match bufIndex with
  | 0 =>
    { pd with
      m_leftPressed := PadData.IsButtonPressed maskLEFT bufVal
      m_downPressed := PadData.IsButtonPressed maskDOWN bufVal
      m_rightPressed := PadData.IsButtonPressed maskRIGHT bufVal
      m_upPressed := PadData.IsButtonPressed maskUP bufVal
      m_start := PadData.IsButtonPressed maskSTART bufVal
      m_r3 := PadData.IsButtonPressed maskR3 bufVal
      m_l3 := PadData.IsButtonPressed maskL3 bufVal
      m_select := PadData.IsButtonPressed maskSELECT bufVal }
  | 1 =>
    { pd with
      m_squarePressed := PadData.IsButtonPressed maskSQUARE bufVal
      m_crossPressed := PadData.IsButtonPressed maskCROSS bufVal
      m_circlePressed := PadData.IsButtonPressed maskCIRCLE bufVal
      m_trianglePressed := PadData.IsButtonPressed maskTRIANGLE bufVal
      m_r1Pressed := PadData.IsButtonPressed maskR1 bufVal
      m_l1Pressed := PadData.IsButtonPressed maskL1 bufVal
      m_r2Pressed := PadData.IsButtonPressed maskR2 bufVal
      m_l2Pressed := PadData.IsButtonPressed maskL2 bufVal }
  | 2 => { pd with m_rightAnalogX := bufVal }
  | 3 => { pd with m_rightAnalogY := bufVal }
  | 4 => { pd with m_leftAnalogX := bufVal }
  | 5 => { pd with m_leftAnalogY := bufVal }
  | 6 => { pd with m_rightPressure := bufVal }
  | 7 => { pd with m_leftPressure := bufVal }
  | 8 => { pd with m_upPressure := bufVal }
  | 9 => { pd with m_downPressure := bufVal }
  | 10 => { pd with m_trianglePressure := bufVal }
  | 11 => { pd with m_circlePressure := bufVal }
  | 12 => { pd with m_crossPressure := bufVal }
  | 13 => { pd with m_squarePressure := bufVal }
  | 14 => { pd with m_l1Pressure := bufVal }
  | 15 => { pd with m_r1Pressure := bufVal }
  | 16 => { pd with m_l2Pressure := bufVal }
  | 17 => { pd with m_r2Pressure := bufVal }
  | _ => pd

/-- `PadData::PollControllerData`: re-encode the byte at `bufIndex` from
the pad state; button-group bytes are accumulated from the pressed
buttons' bitmasks and complemented (active-low) on emission; an index
outside the 18 slots yields 0. -/
def PadData.PollControllerData (pd : PadData) (bufIndex : Nat) : Nat :=
  match bufIndex with
  | 0 =>
    (PadData.BitmaskOrZero pd.m_leftPressed maskLEFT |||
     PadData.BitmaskOrZero pd.m_downPressed maskDOWN |||
     PadData.BitmaskOrZero pd.m_rightPressed maskRIGHT |||
     PadData.BitmaskOrZero pd.m_upPressed maskUP |||
     PadData.BitmaskOrZero pd.m_start maskSTART |||
     PadData.BitmaskOrZero pd.m_r3 maskR3 |||
     PadData.BitmaskOrZero pd.m_l3 maskL3 |||
     PadData.BitmaskOrZero pd.m_select maskSELECT) ^^^ 255
  | 1 =>
    (PadData.BitmaskOrZero pd.m_squarePressed maskSQUARE |||
     PadData.BitmaskOrZero pd.m_crossPressed maskCROSS |||
     PadData.BitmaskOrZero pd.m_circlePressed maskCIRCLE |||
     PadData.BitmaskOrZero pd.m_trianglePressed maskTRIANGLE |||
     PadData.BitmaskOrZero pd.m_r1Pressed maskR1 |||
     PadData.BitmaskOrZero pd.m_l1Pressed maskL1 |||
     PadData.BitmaskOrZero pd.m_r2Pressed maskR2 |||
     PadData.BitmaskOrZero pd.m_l2Pressed maskL2) ^^^ 255
  | 2 => pd.m_rightAnalogX
  | 3 => pd.m_rightAnalogY
  | 4 => pd.m_leftAnalogX
  | 5 => pd.m_leftAnalogY
  | 6 => pd.m_rightPressure
  | 7 => pd.m_leftPressure
  | 8 => pd.m_upPressure
  | 9 => pd.m_downPressure
  | 10 => pd.m_trianglePressure
  | 11 => pd.m_circlePressure
  | 12 => pd.m_crossPressure
  | 13 => pd.m_squarePressure
  | 14 => pd.m_l1Pressure
  | 15 => pd.m_r1Pressure
  | 16 => pd.m_l2Pressure
  | 17 => pd.m_r2Pressure
  | _ => 0

/-! ## Movie file (`InputRecordingFile.cpp`)

`InputRecordingFile.h` is not in the extracted sources; the seekpoint
constants below are modelled from the spec's header layout: one version
byte, three fixed-width null-padded strings, then the 4-byte total-frame
count at `s_seekpointTotalFrames`, the 4-byte redo count at +4, the
start-type byte at +8 and (version 2 only) the pad-usage byte at +9.
The file on disk is modelled as a byte list; `fseek`+`fread` of one byte
succeeds exactly when the offset is non-negative and inside the list, and
`fseek`+`fwrite` of one byte extends the list with zero padding when
writing past the end. -/

/-- `s_controllerInputBytes`: wire size of one pad's data — 18 bytes, as
fixed by the codec's 18 `BufferIndex` cases and by the version-1 layout's
hard-coded 36-byte block for its implied 2 pads (the header declaring the
constant is not in the extracted sources). -/
def s_controllerInputBytes : Nat := 18

/-- Modelled from the spec: byte offset of the total-frame counter, after
the version byte and the fixed-width emulator-version (50), author (255)
and game-name (255) strings. -/
def s_seekpointTotalFrames : Nat := 561

/-- `s_seekpointRedoCount`: the redo counter sits 4 bytes after the total
frames. -/
def s_seekpointRedoCount : Nat := s_seekpointTotalFrames + 4

/-- `s_seekpointPads`: the version-2 pad-usage byte sits 9 bytes after the
total frames (4 total frames + 4 redo count + 1 start type). -/
def s_seekpointPads : Nat := s_seekpointTotalFrames + 9

/-- Modelled from the spec: `InputRecordingStartType` enumeration values
(the header declaring them is not in the sources); only their distinctness
and the savestate tag matter. -/
def startTypeUnspecifiedBoot : Nat := 0
def startTypeFullBoot : Nat := 1
def startTypeFastBoot : Nat := 2
def startTypeSavestate : Nat := 3

/-- Reinterpret a 32-bit unsigned value as a signed 32-bit integer. -/
def toSigned32 (n : Nat) : Int :=
  if n % 4294967296 < 2147483648 then ((n % 4294967296 : Nat) : Int)
  else ((n % 4294967296 : Nat) : Int) - 4294967296

/-- Truncate an integer to its low 32 bits. -/
def intToU32 (i : Int) : Nat := (i % 4294967296).toNat

/-- Read a 32-bit little-endian value from a byte list. -/
def readLE32 (content : List Nat) (off : Nat) : Nat :=
  content.getD off 0 + 256 * content.getD (off + 1) 0 +
    65536 * content.getD (off + 2) 0 + 16777216 * content.getD (off + 3) 0

/-- Overwrite the byte at `pos`, zero-padding the list when `pos` is past
its end (`fseek` past EOF then `fwrite`). -/
def listWriteAt (l : List Nat) (pos : Nat) (b : Nat) : List Nat :=
  if pos < l.length then l.set pos b
  else l ++ List.replicate (pos - l.length) 0 ++ [b]

/-- Write a 32-bit little-endian value at `pos`. -/
def writeLE32At (l : List Nat) (pos : Nat) (v : Nat) : List Nat :=
  listWriteAt
    (listWriteAt
      (listWriteAt
        (listWriteAt l pos (v % 256))
        (pos + 1) (v / 256 % 256))
      (pos + 2) (v / 65536 % 256))
    (pos + 3) (v / 16777216 % 256)

/-- `InputRecordingFileHeader`: the in-memory header fields the claims
touch (the three fixed-width strings are not modelled). -/
structure InputRecordingFileHeader where
  m_fileVersion : Nat
  m_totalFrames : Int
  m_redoCount : Nat
  m_startType : Nat
  m_pads : Nat
  deriving Repr, DecidableEq

/-- `InputRecordingFile`: the open-file flag stands for
`m_recordingFile != nullptr` and `m_content` for the bytes on disk. -/
structure InputRecordingFile where
  m_fileOpen : Bool
  m_content : List Nat
  m_filename : String
  m_header : InputRecordingFileHeader
  m_padCount : Nat
  m_recordingBlockSize : Nat
  m_seekpointInputData : Int
  deriving Repr, DecidableEq

/-- `InputRecordingFileHeader::ReadHeader`: two `fread`s pull in the
561-byte prefix and then the 9 bytes holding total frames, redo count and
start type; both succeed exactly when the file holds at least 570 bytes.
`m_pads` is not read here. -/
def headerRead (h : InputRecordingFileHeader) (content : List Nat) :
    Option InputRecordingFileHeader :=
  if s_seekpointPads ≤ content.length then
    some { h with
      m_fileVersion := content.getD 0 0
      m_totalFrames := toSigned32 (readLE32 content s_seekpointTotalFrames)
      m_redoCount := readLE32 content s_seekpointRedoCount
      m_startType := content.getD (s_seekpointTotalFrames + 8) 0 }
  else none

/-- The C++ loop `for (pad = 1; pad < 256; pad <<= 1) if (m_pads & pad)
m_padCount++`: population count of the low 8 bits. -/
def padCountOf (pads : Nat) : Nat :=
  (List.range 8).foldl (fun acc i => if pads &&& (1 <<< i) ≠ 0 then acc + 1 else acc) 0

/-- `InputRecordingFile::Close`. -/
def InputRecordingFile.Close (f : InputRecordingFile) : InputRecordingFile × Bool :=
  if f.m_fileOpen then
    ({ f with m_fileOpen := false, m_filename := "", m_padCount := 0 }, true)
  else (f, false)

/-- `InputRecordingFile::verifyRecordingFileHeader`; `win` is the
`_WIN32` build flag guarding the multitap check. Returns the updated file
state on success, `none` on rejection. -/
def InputRecordingFile.verifyRecordingFileHeader (win : Bool)
    (f : InputRecordingFile) : Option InputRecordingFile :=
  match headerRead f.m_header f.m_content with
  | none => none
  | some h =>
    if h.m_fileVersion = 1 then
      -- Official version 1: no slot info in the file; implied layout.
      some { f with
        m_header := { h with
          m_startType :=
            if h.m_startType = 0 then startTypeUnspecifiedBoot else startTypeSavestate
          m_pads := 17 }
        m_padCount := 2
        m_recordingBlockSize := 36
        m_seekpointInputData := (s_seekpointPads : Int) }
    else if h.m_fileVersion = 2 then
      -- Official version 2: read the additional pads byte.
      match f.m_content.get? s_seekpointPads with
      | none => none
      | some pads =>
        if pads = 0 then none
        else if win = false ∧ pads &&& 238 ≠ 0 then none
        else
          some { f with
            m_header := { h with m_pads := pads }
            m_padCount := padCountOf pads
            m_recordingBlockSize := s_controllerInputBytes * padCountOf pads
            m_seekpointInputData := (s_seekpointPads : Int) + 1 }
    else none

/-- `InputRecordingFile::open` with `newRecording == false` followed by
`OpenExisting`: `fopenOk` is the `wxFopen(path, "rb+")` outcome and
`content` the opened file's bytes; on a bad header the file is closed and
the open reports failure. -/
def InputRecordingFile.OpenExisting (win : Bool) (f : InputRecordingFile)
    (fopenOk : Bool) (path : String) (content : List Nat) :
    InputRecordingFile × Bool :=
  if fopenOk then
    let f1 := { f with m_fileOpen := true, m_content := content }
    match f1.verifyRecordingFileHeader win with
    | some f2 => ({ f2 with m_filename := path }, true)
    | none => (f1.Close.1, false)
  else (f, false)

/-- `InputRecordingFile::SetTotalFrames`: raise the stored total-frame
high-water mark only when `frame` exceeds it, persisting the new value at
its seekpoint; otherwise report whether the stored value equals `frame`. -/
def InputRecordingFile.SetTotalFrames (f : InputRecordingFile) (frame : Int) :
    InputRecordingFile × Bool :=
  if f.m_header.m_totalFrames < frame then
    ({ f with
        m_header := { f.m_header with m_totalFrames := frame }
        m_content := writeLE32At f.m_content s_seekpointTotalFrames (intToU32 frame) },
      true)
  else (f, f.m_header.m_totalFrames == frame)

/-- `InputRecordingFile::IncrementRedoCount`: bump the counter and
persist its low 32 bits at its seekpoint. -/
def InputRecordingFile.IncrementRedoCount (f : InputRecordingFile) :
    InputRecordingFile :=
  let redo := f.m_header.m_redoCount + 1
  { f with
    m_header := { f.m_header with m_redoCount := redo }
    m_content := writeLE32At f.m_content s_seekpointRedoCount (redo % 4294967296) }

/-- `InputRecordingFile::getRecordingBlockSeekPoint`. -/
def InputRecordingFile.getRecordingBlockSeekPoint (f : InputRecordingFile)
    (frame : Int) : Int :=
  f.m_seekpointInputData + frame * (f.m_recordingBlockSize : Int)

/-- `InputRecordingFile::ReadKeyBuffer`: seek to the frame block plus
`seekOffset` and read one byte; a negative seek or a read past the end of
the file fails (`none`). -/
def InputRecordingFile.ReadKeyBuffer (f : InputRecordingFile) (frame : Int)
    (seekOffset : Nat) : Option Nat :=
  let seek := f.getRecordingBlockSeekPoint frame + (seekOffset : Int)
  if seek < 0 then none else f.m_content.get? seek.toNat

/-- `InputRecordingFile::WriteKeyBuffer`: same addressing as the read;
a negative seek fails, otherwise the single byte at the seek position is
overwritten (growing the file if needed). -/
def InputRecordingFile.WriteKeyBuffer (f : InputRecordingFile) (buf : Nat)
    (frame : Int) (seekOffset : Nat) : InputRecordingFile × Bool :=
  let seek := f.getRecordingBlockSeekPoint frame + (seekOffset : Int)
  if seek < 0 then (f, false)
  else ({ f with m_content := listWriteAt f.m_content seek.toNat buf }, true)

/-- `InputRecordingFile::FromSavestate`. -/
def InputRecordingFile.FromSavestate (f : InputRecordingFile) : Bool :=
  f.m_header.m_startType == startTypeSavestate

/-- `InputRecordingFile::GetTotalFrames`. -/
def InputRecordingFile.GetTotalFrames (f : InputRecordingFile) : Int :=
  f.m_header.m_totalFrames

/-! ## Recording orchestrator (`InputRecording.cpp`) -/

/-- Session / per-pad mode. -/
inductive InputRecordingMode where
  | NotActive
  | Recording
  | Replaying
  deriving Repr, DecidableEq

/-- Modelled from the spec: the GUI widget is an external collaborator
consumed only through a narrow contract — whether it is shown, whether it
is locked read-only, and `VirtualPad::UpdateControllerData`, which may
override the pad data for a buffer index (`some` of the overridden data)
or leave it alone (`none`). -/
structure VirtualPadModel where
  shown : Bool
  readOnly : Bool
  applyOverride : Nat → PadData → Option PadData

/-- `InputRecording::InputRecordingPad`. -/
structure InputRecordingPad where
  m_padData : PadData
  m_virtualPad : VirtualPadModel
  m_state : InputRecordingMode
  m_seekOffset : Nat

/-- A pad that is not hooked up: out-of-range accesses fall back to it. -/
def padDefault : InputRecordingPad :=
  { m_padData := padDataZero
    m_virtualPad := { shown := false, readOnly := false, applyOverride := fun _ _ => none }
    m_state := InputRecordingMode.NotActive
    m_seekOffset := 0 }

/-- `InputRecording`: session state. `m_pads` is the 2×4 port/slot grid. -/
structure InputRecording where
  m_fInterruptFrame : Bool
  m_inputRecordingData : InputRecordingFile
  m_initialLoad : Bool
  m_startingFrame : Nat
  m_frameCounter : Int
  m_incrementRedo : Bool
  m_state : InputRecordingMode
  m_pads : List (List InputRecordingPad)

/-- `m_pads[port][slot]`. -/
def InputRecording.getPad (s : InputRecording) (port slot : Nat) :
    InputRecordingPad :=
  (s.m_pads.getD port []).getD slot padDefault

/-- Replace `m_pads[port][slot]` (no-op when out of range). -/
def InputRecording.setPad (s : InputRecording) (port slot : Nat)
    (pad : InputRecordingPad) : InputRecording :=
  { s with m_pads := s.m_pads.set port ((s.m_pads.getD port []).set slot pad) }

/-- `InputRecording::SetToRecordMode`: the session enters Recording and
every replaying pad follows, its widget unlocked. -/
def InputRecording.SetToRecordMode (s : InputRecording) : InputRecording :=
  { s with
    m_state := InputRecordingMode.Recording
    m_pads := s.m_pads.map (List.map fun pad =>
      if pad.m_state = InputRecordingMode.Replaying then
        { pad with
          m_state := InputRecordingMode.Recording
          m_virtualPad := { pad.m_virtualPad with readOnly := false } }
      else pad) }

/-- `InputRecording::SetToReplayMode`: the session enters Replaying and
every recording pad follows, its widget locked read-only. -/
def InputRecording.SetToReplayMode (s : InputRecording) : InputRecording :=
  { s with
    m_state := InputRecordingMode.Replaying
    m_pads := s.m_pads.map (List.map fun pad =>
      if pad.m_state = InputRecordingMode.Recording then
        { pad with
          m_state := InputRecordingMode.Replaying
          m_virtualPad := { pad.m_virtualPad with readOnly := true } }
      else pad) }

/-- u32 subtraction (`newGFrameCount - m_startingFrame`). -/
def u32sub (a b : Nat) : Nat :=
  (a % 4294967296 + 4294967296 - b % 4294967296) % 4294967296

/-- `InputRecording::SetFrameCounter`: reconcile the session frame counter
with the host's restored global frame count. `endFrame` is the u32 sum of
`m_startingFrame` and the recorded total; at or past it the counter is
clamped to the total, a replaying session drops into Recording and the
pending redo flag is cancelled; below it the counter becomes
`newGFrameCount - m_startingFrame` (u32 difference read as s32), the flag
is armed, and a recording session switches to Replaying when the host
count is below the start or exactly 0. -/
def InputRecording.SetFrameCounter (s : InputRecording) (newGFrameCount : Nat) :
    InputRecording :=
  let endFrame : Nat :=
    (((s.m_startingFrame : Int) + s.m_inputRecordingData.GetTotalFrames) %
      (4294967296 : Int)).toNat
  if newGFrameCount ≥ endFrame then
    let s1 := if s.m_state = InputRecordingMode.Replaying then s.SetToRecordMode else s
    { s1 with
      m_frameCounter := toSigned32 (intToU32 s.m_inputRecordingData.GetTotalFrames)
      m_incrementRedo := false }
  else
    let s1 :=
      if newGFrameCount < s.m_startingFrame then
        if s.m_state = InputRecordingMode.Recording then s.SetToReplayMode else s
      else if newGFrameCount = 0 ∧ s.m_state = InputRecordingMode.Recording then
        s.SetToReplayMode
      else s
    { s1 with
      m_frameCounter := toSigned32 (u32sub newGFrameCount s.m_startingFrame)
      m_incrementRedo := true }

/-- `READ_DATA_AND_VIBRATE_FIRST_BYTE` (0x42). -/
def READ_DATA_AND_VIBRATE_FIRST_BYTE : Nat := 66

/-- `READ_DATA_AND_VIBRATE_SECOND_BYTE` (0x5A). -/
def READ_DATA_AND_VIBRATE_SECOND_BYTE : Nat := 90

/-- `INT_MAX`. -/
def INT_MAX_32 : Int := 2147483647

/-- `bufCount - 3` on a u16. -/
def u16sub3 (bufCount : Nat) : Nat := (bufCount % 65536 + 65533) % 65536

/-- `InputRecording::ControllerInterrupt`: intercept one polled byte.
Returns the updated session state and the byte handed back to the console
(the C++ mutates `bufVal` in place). -/
def InputRecording.ControllerInterrupt (s : InputRecording)
    (data port slot bufCount bufVal : Nat) : InputRecording × Nat :=
  let pad := s.getPad port slot
  if bufCount = 1 then
    ({ s with m_fInterruptFrame := data = READ_DATA_AND_VIBRATE_FIRST_BYTE }, bufVal)
  else if bufCount = 2 then
    (if bufVal ≠ READ_DATA_AND_VIBRATE_SECOND_BYTE then
      { s with m_fInterruptFrame := false }
    else s, bufVal)
  else if s.m_fInterruptFrame then
    let bufIndex := u16sub3 bufCount
    if pad.m_state = InputRecordingMode.Replaying then
      if 0 ≤ s.m_frameCounter ∧ s.m_frameCounter < INT_MAX_32 then
        -- Fetch the byte from the movie; on failure log and keep the live byte.
        let newVal :=
          match s.m_inputRecordingData.ReadKeyBuffer s.m_frameCounter
              (pad.m_seekOffset + bufIndex) with
          | some v => v
          | none => bufVal
        let pd := pad.m_padData.UpdateControllerData bufIndex newVal
        let pd2 :=
          if pad.m_virtualPad.shown then
            match pad.m_virtualPad.applyOverride bufIndex pd with
            | some pdx => pdx
            | none => pd
          else pd
        (s.setPad port slot { pad with m_padData := pd2 }, newVal)
      else (s, bufVal)
    else
      let pd := pad.m_padData.UpdateControllerData bufIndex bufVal
      if pad.m_state = InputRecordingMode.Recording then
        if 0 ≤ s.m_frameCounter then
          -- The widget may override the byte about to be committed.
          let over :=
            if pad.m_virtualPad.shown then
              match pad.m_virtualPad.applyOverride bufIndex pd with
              | some pdx => (pdx, pdx.PollControllerData bufIndex)
              | none => (pd, bufVal)
            else (pd, bufVal)
          -- Flush a pending redo increment before the write.
          let fileRedo :=
            if s.m_incrementRedo then
              (s.m_inputRecordingData.IncrementRedoCount, false)
            else (s.m_inputRecordingData, s.m_incrementRedo)
          let written :=
            fileRedo.1.WriteKeyBuffer over.2 s.m_frameCounter
              (pad.m_seekOffset + bufIndex)
          (InputRecording.setPad
            { s with m_inputRecordingData := written.1, m_incrementRedo := fileRedo.2 }
            port slot { pad with m_padData := over.1 }, over.2)
        else (s.setPad port slot { pad with m_padData := pd }, bufVal)
      else
        let over :=
          if pad.m_virtualPad.shown then
            match pad.m_virtualPad.applyOverride bufIndex pd with
            | some pdx => (pdx, pdx.PollControllerData bufIndex)
            | none => (pd, bufVal)
          else (pd, bufVal)
        (s.setPad port slot { pad with m_padData := over.1 }, over.2)
  else (s, bufVal)

/-- Fold `ControllerInterrupt` over a run of data bytes of one poll
sequence, the buffer counter advancing by one per byte. -/
def InputRecording.processBytes (s : InputRecording) (port slot bufCount : Nat)
    (vals : List Nat) : InputRecording :=
  match vals with
  | [] => s
  | v :: rest =>
    ((s.ControllerInterrupt 0 port slot bufCount v).1).processBytes
      port slot (bufCount + 1) rest

/-- External facts `InputRecording::Play` branches on: the `wxFopen`
outcome, whether the core thread is closed, and whether the recording's
companion savestate file exists. -/
structure PlayEnvironment where
  fopenOk : Bool
  coreThreadClosed : Bool
  savestateExists : Bool

/-- `InputRecording::Play`: open the movie file; on failure the session
state is untouched. On success the session enters Replaying and the
savestate / boot preconditions are checked, closing the file again when
they fail. -/
def InputRecording.Play (s : InputRecording) (env : PlayEnvironment)
    (win : Bool) (path : String) (content : List Nat) : InputRecording × Bool :=
  let opened :=
    s.m_inputRecordingData.OpenExisting win env.fopenOk path content
  if opened.2 = false then ({ s with m_inputRecordingData := opened.1 }, false)
  else
    let f := opened.1
    let s1 := { s with m_inputRecordingData := f, m_state := InputRecordingMode.Replaying }
    if f.FromSavestate then
      if env.coreThreadClosed then
        ({ s1 with m_inputRecordingData := f.Close.1 }, false)
      else if ¬env.savestateExists then
        ({ s1 with m_inputRecordingData := f.Close.1 }, false)
      else ({ s1 with m_initialLoad := true }, true)
    else if f.m_header.m_startType = startTypeFullBoot ∨
        f.m_header.m_startType = startTypeFastBoot ∨
        f.m_header.m_startType = startTypeUnspecifiedBoot then
      ({ s1 with m_initialLoad := true }, true)
    else (s1, true)

/-! ## Concrete instances used to instantiate the claims -/

/-- A version-2 header with a given stored total-frame count. -/
def headerOf (total : Int) : InputRecordingFileHeader :=
  { m_fileVersion := 2, m_totalFrames := total, m_redoCount := 0,
    m_startType := 0, m_pads := 17 }

/-- An open two-pad version-2 movie file with the given stored total and
no frame data yet (block size 2 × 18 = 36). -/
def fileOf (total : Int) : InputRecordingFile :=
  { m_fileOpen := true, m_content := [], m_filename := "rec",
    m_header := headerOf total, m_padCount := 2, m_recordingBlockSize := 36,
    m_seekpointInputData := 571 }

/-- A session over `fileOf total` with one pad in the given per-pad mode. -/
def sessionOf (mode : InputRecordingMode) (start : Nat) (total : Int)
    (padMode : InputRecordingMode) : InputRecording :=
  { m_fInterruptFrame := true, m_inputRecordingData := fileOf total,
    m_initialLoad := false, m_startingFrame := start, m_frameCounter := 0,
    m_incrementRedo := false, m_state := mode,
    m_pads := [[{ padDefault with m_state := padMode }]] }

/-- File contents with a given version byte and a header-sized zero tail:
exactly `s_seekpointPads` bytes, so no version-2 pads byte is present. -/
def headerOnlyContent (version : Nat) : List Nat :=
  version :: List.replicate 569 0

/-- A version-2 file image whose pads byte selects pads 1A and 1B
(bitmask 3, a multitap slot). -/
def multitapContent : List Nat :=
  2 :: (List.replicate 569 0 ++ [3])

/-- A version-2 file image whose pads byte (offset 570) selects pads 1A
and 2A (bitmask 17, padCount 2), with frame data such that the byte at
`inputDataOffset + 5×34 + 17` (offset 758) is 55 while the byte at
`inputDataOffset + 5×36 + 17` (offset 768) is 77. -/
def twoPadContent : List Nat :=
  2 :: (List.replicate 569 0 ++ [17] ++ List.replicate 187 0 ++ [55] ++
    List.replicate 9 0 ++ [77])

/-! ## Helper lemmas -/

set_option maxRecDepth 4096 in
lemma pollUpdateGroupOne_zero :
    ∀ c : Fin 256,
      PadData.PollControllerData (PadData.UpdateControllerData padDataZero 0 c.val) 0 = c.val := by
  decide

set_option maxRecDepth 4096 in
lemma pollUpdateGroupTwo_zero :
    ∀ c : Fin 256,
      PadData.PollControllerData (PadData.UpdateControllerData padDataZero 1 c.val) 1 = c.val := by
  decide

/-- Writing a key byte never changes the in-memory header. -/
lemma writeKeyBuffer_header (f : InputRecordingFile) (b : Nat) (frame : Int)
    (off : Nat) : ((f.WriteKeyBuffer b frame off).1).m_header = f.m_header := by
  unfold InputRecordingFile.WriteKeyBuffer
  dsimp only
  split <;> rfl

/-- The stored total after `SetTotalFrames` is the pointwise maximum of
the old value and the argument. -/
lemma setTotalFrames_total (g : InputRecordingFile) (k : Int) :
    (g.SetTotalFrames k).1.m_header.m_totalFrames =
      if g.m_header.m_totalFrames < k then k else g.m_header.m_totalFrames := by
  unfold InputRecordingFile.SetTotalFrames
  split_ifs <;> rfl

/-- The boolean result of `SetTotalFrames` is `old stored ≤ argument`. -/
lemma setTotalFrames_snd (g : InputRecordingFile) (k : Int) :
    (g.SetTotalFrames k).2 = decide (g.m_header.m_totalFrames ≤ k) := by
  unfold InputRecordingFile.SetTotalFrames
  split_ifs with h
  · simp [le_of_lt h]
  · by_cases he : g.m_header.m_totalFrames = k
    · simp [he]
    · have hk : ¬(g.m_header.m_totalFrames ≤ k) := by omega
      simp [he, hk]

/-- With no pending redo increment, intercepting a byte never touches the
redo counter and never re-arms the flag. -/
lemma controllerInterrupt_flag_false (s : InputRecording) (d p sl bc v : Nat)
    (h : s.m_incrementRedo = false) :
    (s.ControllerInterrupt d p sl bc v).1.m_inputRecordingData.m_header.m_redoCount
      = s.m_inputRecordingData.m_header.m_redoCount ∧
    (s.ControllerInterrupt d p sl bc v).1.m_incrementRedo = false := by
  refine ⟨?_, ?_⟩ <;>
  · unfold InputRecording.ControllerInterrupt
    dsimp only
    split_ifs <;>
      simp_all [InputRecording.setPad, writeKeyBuffer_header]

/-- With the redo flag armed, the first recorded byte flushes it: the
redo counter is incremented and persisted once, and the flag clears. -/
lemma controllerInterrupt_flush_redo (s : InputRecording) (d p sl bc v : Nat)
    (hbc : 3 ≤ bc)
    (hint : s.m_fInterruptFrame = true)
    (hpad : (s.getPad p sl).m_state = InputRecordingMode.Recording)
    (hfc : 0 ≤ s.m_frameCounter)
    (hflag : s.m_incrementRedo = true) :
    (s.ControllerInterrupt d p sl bc v).1.m_inputRecordingData.m_header.m_redoCount
      = s.m_inputRecordingData.m_header.m_redoCount + 1 ∧
    (s.ControllerInterrupt d p sl bc v).1.m_incrementRedo = false := by
  have hb1 : bc ≠ 1 := by omega
  have hb2 : bc ≠ 2 := by omega
  refine ⟨?_, ?_⟩ <;>
  · unfold InputRecording.ControllerInterrupt
    simp [hb1, hb2, hint, hpad, hfc, hflag, InputRecording.setPad,
      writeKeyBuffer_header, InputRecordingFile.IncrementRedoCount]

/-- Processing any run of bytes with the redo flag down leaves the redo
counter alone and the flag down. -/
lemma processBytes_flag_false (port slot : Nat) (vals : List Nat) :
    ∀ bufCount : Nat, ∀ s : InputRecording, s.m_incrementRedo = false →
      (s.processBytes port slot bufCount vals).m_inputRecordingData.m_header.m_redoCount
        = s.m_inputRecordingData.m_header.m_redoCount ∧
      (s.processBytes port slot bufCount vals).m_incrementRedo = false := by
  induction vals with
  | nil =>
    intro bufCount s h
    exact ⟨rfl, h⟩
  | cons v rest ih =>
    intro bufCount s h
    unfold InputRecording.processBytes
    obtain ⟨h1, h2⟩ := controllerInterrupt_flag_false s 0 port slot bufCount v h
    obtain ⟨h3, h4⟩ := ih (bufCount + 1) _ h2
    exact ⟨h3.trans h1, h4⟩

/-! ## Claims -/

/-- C1: for every button-group byte `b` (field index `PressedFlagsGroupOne`
or `PressedFlagsGroupTwo`), decoding `b` with `UpdateControllerData` and
re-encoding that field with `PollControllerData` yields `b` again, whatever
pad state the decode started from (active-low bitmask convention). -/
theorem claim_C1_codec_roundtrip (pd : PadData) (b : Nat) (hb : b < 256) :
    PadData.PollControllerData (PadData.UpdateControllerData pd 0 b) 0 = b ∧
    PadData.PollControllerData (PadData.UpdateControllerData pd 1 b) 1 = b := by
  have h1 : PadData.PollControllerData (PadData.UpdateControllerData pd 0 b) 0
      = PadData.PollControllerData (PadData.UpdateControllerData padDataZero 0 b) 0 := by
    simp only [PadData.UpdateControllerData, PadData.PollControllerData]
  have h2 : PadData.PollControllerData (PadData.UpdateControllerData pd 1 b) 1
      = PadData.PollControllerData (PadData.UpdateControllerData padDataZero 1 b) 1 := by
    simp only [PadData.UpdateControllerData, PadData.PollControllerData]
  refine ⟨?_, ?_⟩
  · rw [h1]
    exact pollUpdateGroupOne_zero ⟨b, hb⟩
  · rw [h2]
    exact pollUpdateGroupTwo_zero ⟨b, hb⟩

/-- Witness for C1 at the concrete byte 154. -/
theorem claim_C1_codec_roundtrip_witness :
    PadData.PollControllerData (PadData.UpdateControllerData padDataZero 0 154) 0 = 154 ∧
    PadData.PollControllerData (PadData.UpdateControllerData padDataZero 1 154) 1 = 154 :=
  claim_C1_codec_roundtrip padDataZero 154 (by decide)

/-- C2: for an active session, reconciling with a host frame count at or
past `startingFrame + totalFrames` clamps the session counter to the
total-frame count, drops a Replaying session into Recording, and clears
the pending redo flag. -/
theorem claim_C2_reconcile_past_end (s : InputRecording) (newG : Nat)
    (htot0 : 0 ≤ s.m_inputRecordingData.GetTotalFrames)
    (htot1 : s.m_inputRecordingData.GetTotalFrames < 2147483648)
    (hrange : (s.m_startingFrame : Int) + s.m_inputRecordingData.GetTotalFrames < 4294967296)
    (h : (s.m_startingFrame : Int) + s.m_inputRecordingData.GetTotalFrames ≤ (newG : Int)) :
    (s.SetFrameCounter newG).m_frameCounter = s.m_inputRecordingData.GetTotalFrames ∧
    (s.SetFrameCounter newG).m_incrementRedo = false ∧
    (s.m_state = InputRecordingMode.Replaying →
      (s.SetFrameCounter newG).m_state = InputRecordingMode.Recording) := by
  have h0 : (0:Int) ≤ (s.m_startingFrame : Int) + s.m_inputRecordingData.GetTotalFrames :=
    add_nonneg (Int.natCast_nonneg _) htot0
  have hmod := Int.emod_eq_of_lt h0 hrange
  have key : s.SetFrameCounter newG =
      { (if s.m_state = InputRecordingMode.Replaying then s.SetToRecordMode else s) with
        m_frameCounter := toSigned32 (intToU32 s.m_inputRecordingData.GetTotalFrames)
        m_incrementRedo := false } := by
    unfold InputRecording.SetFrameCounter
    rw [hmod]
    rw [if_pos (by omega)]
  rw [key]
  refine ⟨?_, rfl, ?_⟩
  · show toSigned32 (intToU32 s.m_inputRecordingData.GetTotalFrames)
        = s.m_inputRecordingData.GetTotalFrames
    unfold toSigned32 intToU32
    split <;> omega
  · intro hrep
    rw [if_pos hrep]
    rfl

/-- Witness for C2: starting frame 100, recorded total 50, host clock 200,
previously Replaying. -/
theorem claim_C2_reconcile_past_end_witness :
    ((sessionOf InputRecordingMode.Replaying 100 50
        InputRecordingMode.Replaying).SetFrameCounter 200).m_frameCounter = 50 ∧
    ((sessionOf InputRecordingMode.Replaying 100 50
        InputRecordingMode.Replaying).SetFrameCounter 200).m_incrementRedo = false ∧
    ((sessionOf InputRecordingMode.Replaying 100 50
          InputRecordingMode.Replaying).m_state = InputRecordingMode.Replaying →
      ((sessionOf InputRecordingMode.Replaying 100 50
          InputRecordingMode.Replaying).SetFrameCounter 200).m_state
        = InputRecordingMode.Recording) :=
  claim_C2_reconcile_past_end
    (sessionOf InputRecordingMode.Replaying 100 50 InputRecordingMode.Replaying)
    200 (by decide) (by decide) (by decide) (by decide)

/-- C3 counterexample: a Recording session with `startingFrame = 100` and
total 50 reconciled at host clock 100 recomputes a counter of exactly 0,
yet stays in Recording — the code tests the raw host count against 0, not
the recomputed counter, so the claimed switch to Replaying does not
happen. -/
theorem claim_C3_counterexample :
    (sessionOf InputRecordingMode.Recording 100 50
        InputRecordingMode.Recording).m_state = InputRecordingMode.Recording ∧
    (sessionOf InputRecordingMode.Recording 100 50
        InputRecordingMode.Recording).m_startingFrame = 100 ∧
    ((sessionOf InputRecordingMode.Recording 100 50
        InputRecordingMode.Recording).SetFrameCounter 100).m_frameCounter = 0 ∧
    ((sessionOf InputRecordingMode.Recording 100 50
        InputRecordingMode.Recording).SetFrameCounter 100).m_state
      = InputRecordingMode.Recording := by
  decide

/-- C3 amended: the switch happens when the host frame count itself is 0.
For a session in Recording mode whose host clock is reconciled to 0 while
below the recording's end (so with `startingFrame = 0`, where the
recomputed counter 0 coincides with host clock 0), the session switches
to Replaying with the counter set to 0. -/
theorem claim_C3_amended_zero_host_clock (s : InputRecording)
    (hstart : s.m_startingFrame = 0)
    (hst : s.m_state = InputRecordingMode.Recording)
    (htot : 0 < s.m_inputRecordingData.GetTotalFrames)
    (htot2 : s.m_inputRecordingData.GetTotalFrames < 4294967296) :
    (s.SetFrameCounter 0).m_state = InputRecordingMode.Replaying ∧
    (s.SetFrameCounter 0).m_frameCounter = 0 := by
  have key : s.SetFrameCounter 0 =
      { s.SetToReplayMode with
        m_frameCounter := toSigned32 (u32sub 0 s.m_startingFrame)
        m_incrementRedo := true } := by
    unfold InputRecording.SetFrameCounter
    dsimp only
    split_ifs with h1 h2 h3
    all_goals first
      | rfl
      | (exfalso; omega)
      | (exact absurd (⟨rfl, hst⟩ : 0 = 0 ∧ s.m_state = InputRecordingMode.Recording)
          (by assumption))
  rw [key]
  refine ⟨rfl, ?_⟩
  show toSigned32 (u32sub 0 s.m_startingFrame) = 0
  rw [hstart]
  decide

/-- Witness for the amended C3: starting frame 0, total 50, Recording. -/
theorem claim_C3_amended_zero_host_clock_witness :
    ((sessionOf InputRecordingMode.Recording 0 50
        InputRecordingMode.Recording).SetFrameCounter 0).m_state
      = InputRecordingMode.Replaying ∧
    ((sessionOf InputRecordingMode.Recording 0 50
        InputRecordingMode.Recording).SetFrameCounter 0).m_frameCounter = 0 :=
  claim_C3_amended_zero_host_clock
    (sessionOf InputRecordingMode.Recording 0 50 InputRecordingMode.Recording)
    rfl rfl (by decide) (by decide)

/-- C4 counterexample: with a stored total of 10, `SetTotalFrames 5`
returns `false` although the stored value (10) was already ≥ 5 — the
boolean result does not report "stored was already ≥ n" (it reports
whether n reached the stored value). The stored total does remain 10. -/
theorem claim_C4_counterexample :
    (fileOf 10).m_header.m_totalFrames = 10 ∧ (5 : Int) ≤ 10 ∧
    ((fileOf 10).SetTotalFrames 5).2 = false ∧
    ((fileOf 10).SetTotalFrames 5).1.m_header.m_totalFrames = 10 := by
  decide

/-- C4 amended: `SetTotalFrames n` updates the stored total only when `n`
exceeds it — after `SetTotalFrames n` then `SetTotalFrames m` with
`m < n` (and the stored value initially below `n`) the stored total
remains `n` — and its boolean result reports whether the previously
stored value was ≤ n (equivalently, whether the stored value after the
call equals n), not whether it was already ≥ n. -/
theorem claim_C4_amended_monotonic (f g : InputRecordingFile) (n m k : Int)
    (h1 : f.m_header.m_totalFrames < n) (h2 : m < n) :
    ((f.SetTotalFrames n).1.SetTotalFrames m).1.m_header.m_totalFrames = n ∧
    (f.SetTotalFrames n).2 = true ∧
    (g.SetTotalFrames k).2 = decide (g.m_header.m_totalFrames ≤ k) := by
  refine ⟨?_, ?_, setTotalFrames_snd g k⟩
  · rw [setTotalFrames_total, setTotalFrames_total]
    rw [if_pos h1]
    split_ifs with hnm
    · omega
    · rfl
  · rw [setTotalFrames_snd]
    simp only [decide_eq_true_eq]
    exact le_of_lt h1

/-- Witness for the amended C4: stored 0, n = 5, m = 3; boolean check on a
file storing 10 queried with 5. -/
theorem claim_C4_amended_monotonic_witness :
    (((fileOf 0).SetTotalFrames 5).1.SetTotalFrames 3).1.m_header.m_totalFrames = 5 ∧
    ((fileOf 0).SetTotalFrames 5).2 = true ∧
    ((fileOf 10).SetTotalFrames 5).2 = decide ((fileOf 10).m_header.m_totalFrames ≤ 5) :=
  claim_C4_amended_monotonic (fileOf 0) (fileOf 10) 5 3 5 (by decide) (by decide)

/-- C6 counterexample: a version-2 file whose pads byte selects two pads
(bitmask 17) opens with a recording block size of 36, not 34 — the
per-pad wire size is 18, not 17 — and `ReadKeyBuffer` at frame 5, seek
offset 17 fetches the byte at `inputDataOffset + 5×36 + 17` (value 77),
not the byte at the claimed `inputDataOffset + 5×34 + 17` (value 55). -/
theorem claim_C6_counterexample :
    ((fileOf 0).OpenExisting false true "movie" twoPadContent).2 = true ∧
    ((fileOf 0).OpenExisting false true "movie" twoPadContent).1.m_padCount = 2 ∧
    ((fileOf 0).OpenExisting false true "movie" twoPadContent).1.m_recordingBlockSize = 36 ∧
    ((fileOf 0).OpenExisting false true "movie" twoPadContent).1.m_recordingBlockSize ≠ 34 ∧
    ((fileOf 0).OpenExisting false true "movie" twoPadContent).1.m_seekpointInputData = 571 ∧
    ((fileOf 0).OpenExisting false true "movie" twoPadContent).1.ReadKeyBuffer 5 17
      = some 77 ∧
    twoPadContent.get? (571 + 5 * 34 + 17) = some 55 := by
  decide

/-- C6 amended: `ReadKeyBuffer` and `WriteKeyBuffer` address the single
byte at `inputDataOffset + frame × recordingBlockSize + seekOffset`; in
particular for padCount=2 the block size is 36 (per-pad wire size 18), so
with frame 5 and pad seek offset 18 the byte for field index `i` lives at
`inputDataOffset + 5×36 + 18 + i`. -/
theorem claim_C6_amended_frame_addressing (f : InputRecordingFile) (frame : Int)
    (off i b : Nat)
    (hsp : 0 ≤ f.m_seekpointInputData)
    (hfr : 0 ≤ frame)
    (hbs : f.m_recordingBlockSize = 36) :
    f.ReadKeyBuffer frame off
        = f.m_content.get?
          (f.m_seekpointInputData + frame * (f.m_recordingBlockSize : Int) + (off : Int)).toNat ∧
    (f.WriteKeyBuffer b frame off).1.m_content
        = listWriteAt f.m_content
          (f.m_seekpointInputData + frame * (f.m_recordingBlockSize : Int) + (off : Int)).toNat b ∧
    (f.WriteKeyBuffer b frame off).2 = true ∧
    f.ReadKeyBuffer 5 (18 + i)
        = f.m_content.get? (f.m_seekpointInputData.toNat + 5 * 36 + 18 + i) ∧
    (f.WriteKeyBuffer b 5 (18 + i)).1.m_content
        = listWriteAt f.m_content (f.m_seekpointInputData.toNat + 5 * 36 + 18 + i) b := by
  have hnn : ¬ (f.m_seekpointInputData + frame * (f.m_recordingBlockSize : Int) + (off : Int) < 0) :=
    Int.not_lt.mpr
      (add_nonneg (add_nonneg hsp (mul_nonneg hfr (Int.natCast_nonneg _)))
        (Int.natCast_nonneg _))
  refine ⟨?_, ?_, ?_, ?_, ?_⟩
  · unfold InputRecordingFile.ReadKeyBuffer InputRecordingFile.getRecordingBlockSeekPoint
    dsimp only
    rw [if_neg hnn]
  · unfold InputRecordingFile.WriteKeyBuffer InputRecordingFile.getRecordingBlockSeekPoint
    dsimp only
    rw [if_neg hnn]
  · unfold InputRecordingFile.WriteKeyBuffer InputRecordingFile.getRecordingBlockSeekPoint
    dsimp only
    rw [if_neg hnn]
  · unfold InputRecordingFile.ReadKeyBuffer InputRecordingFile.getRecordingBlockSeekPoint
    dsimp only
    rw [hbs]
    split_ifs with h
    · exfalso
      omega
    · congr 1
      omega
  · unfold InputRecordingFile.WriteKeyBuffer InputRecordingFile.getRecordingBlockSeekPoint
    dsimp only
    rw [hbs]
    split_ifs with h
    · exfalso
      omega
    · have hidx : (f.m_seekpointInputData + 5 * ((36:Nat):Int) + ((18 + i : Nat):Int)).toNat
          = f.m_seekpointInputData.toNat + 5 * 36 + 18 + i := by omega
      rw [hidx]

/-- Witness for the amended C6: the two-pad file `fileOf 50` (block 36,
data offset 571), frame 7, offset 4, field 2, byte 9. -/
theorem claim_C6_amended_frame_addressing_witness :
    (fileOf 50).ReadKeyBuffer 7 4
        = (fileOf 50).m_content.get?
          ((fileOf 50).m_seekpointInputData + 7 * ((fileOf 50).m_recordingBlockSize : Int) + (4 : Int)).toNat ∧
    ((fileOf 50).WriteKeyBuffer 9 7 4).1.m_content
        = listWriteAt (fileOf 50).m_content
          ((fileOf 50).m_seekpointInputData + 7 * ((fileOf 50).m_recordingBlockSize : Int) + (4 : Int)).toNat 9 ∧
    ((fileOf 50).WriteKeyBuffer 9 7 4).2 = true ∧
    (fileOf 50).ReadKeyBuffer 5 (18 + 2)
        = (fileOf 50).m_content.get? ((fileOf 50).m_seekpointInputData.toNat + 5 * 36 + 18 + 2) ∧
    ((fileOf 50).WriteKeyBuffer 9 5 (18 + 2)).1.m_content
        = listWriteAt (fileOf 50).m_content ((fileOf 50).m_seekpointInputData.toNat + 5 * 36 + 18 + 2) 9 :=
  claim_C6_amended_frame_addressing (fileOf 50) 7 4 2 9 (by decide) (by decide) (by decide)

/-- C7: a file whose stored format version is neither 1 nor 2 is rejected
by `OpenExisting` — the open returns `false` and the file handle is
closed — and `Play` on such a file fails without touching the session
mode, so no session becomes active. -/
theorem claim_C7_unsupported_version (s : InputRecording) (env : PlayEnvironment)
    (win : Bool) (path : String) (content : List Nat) (v : Nat)
    (hv : content.getD 0 0 = v) (h1 : v ≠ 1) (h2 : v ≠ 2)
    (henv : env.fopenOk = true) :
    (s.m_inputRecordingData.OpenExisting win true path content).2 = false ∧
    (s.m_inputRecordingData.OpenExisting win true path content).1.m_fileOpen = false ∧
    (s.Play env win path content).2 = false ∧
    (s.Play env win path content).1.m_state = s.m_state := by
  have hver : ∀ g : InputRecordingFile, g.m_content = content →
      g.verifyRecordingFileHeader win = none := by
    intro g hg
    unfold InputRecordingFile.verifyRecordingFileHeader headerRead
    rw [hg]
    split_ifs with hlen
    · dsimp only
      rw [hv]
      rw [if_neg h1]
      rw [if_neg h2]
    · rfl
  have hopen : ∀ g : InputRecordingFile,
      g.OpenExisting win true path content =
        (({ g with m_fileOpen := true, m_content := content } :
            InputRecordingFile).Close.1, false) := by
    intro g
    unfold InputRecordingFile.OpenExisting
    rw [if_pos rfl]
    dsimp only
    rw [hver { g with m_fileOpen := true, m_content := content } rfl]
  refine ⟨?_, ?_, ?_, ?_⟩
  · rw [hopen]
  · rw [hopen]
    unfold InputRecordingFile.Close
    rw [if_pos rfl]
  · unfold InputRecording.Play
    rw [henv, hopen]
    dsimp only
    rw [if_pos rfl]
  · unfold InputRecording.Play
    rw [henv, hopen]
    dsimp only
    rw [if_pos rfl]

/-- Witness for C7: 570 zero-padded bytes with version byte 3. -/
theorem claim_C7_unsupported_version_witness :
    ((sessionOf InputRecordingMode.NotActive 0 0
        InputRecordingMode.NotActive).m_inputRecordingData.OpenExisting
      false true "movie" (headerOnlyContent 3)).2 = false ∧
    ((sessionOf InputRecordingMode.NotActive 0 0
        InputRecordingMode.NotActive).m_inputRecordingData.OpenExisting
      false true "movie" (headerOnlyContent 3)).1.m_fileOpen = false ∧
    ((sessionOf InputRecordingMode.NotActive 0 0
        InputRecordingMode.NotActive).Play
      { fopenOk := true, coreThreadClosed := false, savestateExists := true }
      false "movie" (headerOnlyContent 3)).2 = false ∧
    ((sessionOf InputRecordingMode.NotActive 0 0
        InputRecordingMode.NotActive).Play
      { fopenOk := true, coreThreadClosed := false, savestateExists := true }
      false "movie" (headerOnlyContent 3)).1.m_state
      = (sessionOf InputRecordingMode.NotActive 0 0
          InputRecordingMode.NotActive).m_state :=
  claim_C7_unsupported_version
    (sessionOf InputRecordingMode.NotActive 0 0 InputRecordingMode.NotActive)
    { fopenOk := true, coreThreadClosed := false, savestateExists := true }
    false "movie" (headerOnlyContent 3) 3 (by decide) (by decide) (by decide) rfl

/-- C8: a version-1 file opens successfully even when it ends right where
the version-2 pads byte would sit (no pads byte is read), and the open
yields an implied pad count of 2, a recording block size of 36, and the
input-data offset placed at the version-2 pads-byte position. -/
theorem claim_C8_version1_layout (f : InputRecordingFile) (win : Bool)
    (path : String) (content : List Nat)
    (hlen : content.length = s_seekpointPads)
    (hv : content.getD 0 0 = 1) :
    (f.OpenExisting win true path content).2 = true ∧
    (f.OpenExisting win true path content).1.m_padCount = 2 ∧
    (f.OpenExisting win true path content).1.m_recordingBlockSize = 36 ∧
    (f.OpenExisting win true path content).1.m_seekpointInputData
      = (s_seekpointPads : Int) := by
  have hver : ({ f with m_fileOpen := true, m_content := content } :
      InputRecordingFile).verifyRecordingFileHeader win =
      some { ({ f with m_fileOpen := true, m_content := content } :
          InputRecordingFile) with
        m_header := {
          ({ f with m_fileOpen := true, m_content := content } :
              InputRecordingFile).m_header with
          m_fileVersion := content.getD 0 0
          m_totalFrames := toSigned32 (readLE32 content s_seekpointTotalFrames)
          m_redoCount := readLE32 content s_seekpointRedoCount
          m_startType :=
            if content.getD (s_seekpointTotalFrames + 8) 0 = 0 then
              startTypeUnspecifiedBoot
            else startTypeSavestate
          m_pads := 17 }
        m_padCount := 2
        m_recordingBlockSize := 36
        m_seekpointInputData := (s_seekpointPads : Int) } := by
    unfold InputRecordingFile.verifyRecordingFileHeader headerRead
    rw [if_pos (by rw [hlen])]
    dsimp only
    rw [hv]
    rw [if_pos rfl]
  refine ⟨?_, ?_, ?_, ?_⟩ <;>
  · unfold InputRecordingFile.OpenExisting
    rw [if_pos rfl]
    dsimp only
    rw [hver]

/-- Witness for C8: 570 bytes, version byte 1, nothing after the header. -/
theorem claim_C8_version1_layout_witness :
    ((fileOf 0).OpenExisting false true "movie" (headerOnlyContent 1)).2 = true ∧
    ((fileOf 0).OpenExisting false true "movie" (headerOnlyContent 1)).1.m_padCount = 2 ∧
    ((fileOf 0).OpenExisting false true "movie" (headerOnlyContent 1)).1.m_recordingBlockSize = 36 ∧
    ((fileOf 0).OpenExisting false true "movie" (headerOnlyContent 1)).1.m_seekpointInputData
      = (s_seekpointPads : Int) :=
  claim_C8_version1_layout (fileOf 0) false "movie" (headerOnlyContent 1)
    (by decide) (by decide)

/-- C10: on a non-Windows build, `OpenExisting` rejects every version-2
file whose pad bitmask selects a multitap slot (bitmask AND 0xEE = 238
nonzero): the open returns `false` and the file is closed, even though
the version is supported and the bitmask is non-zero. -/
theorem claim_C10_multitap_rejected (f : InputRecordingFile) (path : String)
    (content : List Nat) (pads : Nat)
    (hv : content.getD 0 0 = 2)
    (hp : content.get? s_seekpointPads = some pads)
    (hpnz : pads ≠ 0)
    (hmt : pads &&& 238 ≠ 0) :
    (f.OpenExisting false true path content).2 = false ∧
    (f.OpenExisting false true path content).1.m_fileOpen = false := by
  have hlen : s_seekpointPads ≤ content.length := by
    obtain ⟨hlt, -⟩ := List.get?_eq_some.mp hp
    exact le_of_lt hlt
  have hver : ({ f with m_fileOpen := true, m_content := content } :
      InputRecordingFile).verifyRecordingFileHeader false = none := by
    unfold InputRecordingFile.verifyRecordingFileHeader headerRead
    rw [if_pos hlen]
    dsimp only
    rw [hv]
    rw [if_neg (by decide)]
    rw [if_pos rfl]
    rw [hp]
    dsimp only
    rw [if_neg hpnz]
    rw [if_pos ⟨rfl, hmt⟩]
  have hopen : f.OpenExisting false true path content =
      (({ f with m_fileOpen := true, m_content := content } :
          InputRecordingFile).Close.1, false) := by
    unfold InputRecordingFile.OpenExisting
    rw [if_pos rfl]
    dsimp only
    rw [hver]
  refine ⟨?_, ?_⟩
  · rw [hopen]
  · rw [hopen]
    unfold InputRecordingFile.Close
    rw [if_pos rfl]

/-- Witness for C10: a version-2 image whose pads byte is 3 (pads 1A and
1B; 3 AND 238 = 2). -/
theorem claim_C10_multitap_rejected_witness :
    ((fileOf 0).OpenExisting false true "movie" multitapContent).2 = false ∧
    ((fileOf 0).OpenExisting false true "movie" multitapContent).1.m_fileOpen = false :=
  claim_C10_multitap_rejected (fileOf 0) "movie" multitapContent 3
    (by decide) (by decide) (by decide) (by decide)

/-- C5: with the pending redo flag armed and a pad recording into a
previously recorded frame, the redo counter is incremented exactly once —
at the first committed byte (buffer count 3), which also clears the
flag — and processing the frame's remaining bytes leaves the counter at
that value. -/
theorem claim_C5_redo_flushed_once (s : InputRecording) (port slot v : Nat)
    (rest : List Nat)
    (hint : s.m_fInterruptFrame = true)
    (hpad : (s.getPad port slot).m_state = InputRecordingMode.Recording)
    (hfc : 0 ≤ s.m_frameCounter)
    (hflag : s.m_incrementRedo = true) :
    ((s.ControllerInterrupt 0 port slot 3 v).1).m_inputRecordingData.m_header.m_redoCount
      = s.m_inputRecordingData.m_header.m_redoCount + 1 ∧
    ((s.ControllerInterrupt 0 port slot 3 v).1).m_incrementRedo = false ∧
    (((s.ControllerInterrupt 0 port slot 3 v).1).processBytes port slot 4
        rest).m_inputRecordingData.m_header.m_redoCount
      = s.m_inputRecordingData.m_header.m_redoCount + 1 ∧
    (((s.ControllerInterrupt 0 port slot 3 v).1).processBytes port slot 4
        rest).m_incrementRedo = false := by
  obtain ⟨h1, h2⟩ :=
    controllerInterrupt_flush_redo s 0 port slot 3 v (by omega) hint hpad hfc hflag
  obtain ⟨h3, h4⟩ := processBytes_flag_false port slot rest 4 _ h2
  exact ⟨h1, h2, h3.trans h1, h4⟩

/-- Witness for C5: a recording session with the redo flag armed commits
byte 7 then bytes 1 and 2 of the same frame. -/
theorem claim_C5_redo_flushed_once_witness :
    ((({ sessionOf InputRecordingMode.Recording 0 50 InputRecordingMode.Recording with
          m_incrementRedo := true } :
        InputRecording).ControllerInterrupt 0 0 0 3
        7).1).m_inputRecordingData.m_header.m_redoCount
      = ({ sessionOf InputRecordingMode.Recording 0 50 InputRecordingMode.Recording with
          m_incrementRedo := true } :
        InputRecording).m_inputRecordingData.m_header.m_redoCount + 1 ∧
    ((({ sessionOf InputRecordingMode.Recording 0 50 InputRecordingMode.Recording with
          m_incrementRedo := true } :
        InputRecording).ControllerInterrupt 0 0 0 3 7).1).m_incrementRedo = false ∧
    (((({ sessionOf InputRecordingMode.Recording 0 50 InputRecordingMode.Recording with
          m_incrementRedo := true } :
        InputRecording).ControllerInterrupt 0 0 0 3 7).1).processBytes 0 0 4
        [1, 2]).m_inputRecordingData.m_header.m_redoCount
      = ({ sessionOf InputRecordingMode.Recording 0 50 InputRecordingMode.Recording with
          m_incrementRedo := true } :
        InputRecording).m_inputRecordingData.m_header.m_redoCount + 1 ∧
    (((({ sessionOf InputRecordingMode.Recording 0 50 InputRecordingMode.Recording with
          m_incrementRedo := true } :
        InputRecording).ControllerInterrupt 0 0 0 3 7).1).processBytes 0 0 4
        [1, 2]).m_incrementRedo = false :=
  claim_C5_redo_flushed_once
    ({ sessionOf InputRecordingMode.Recording 0 50 InputRecordingMode.Recording with
        m_incrementRedo := true })
    0 0 7 [1, 2] rfl (by decide) (by decide) rfl

/-- C9: while replaying, when the movie-file byte fetch for the current
frame and pad fails, `ControllerInterrupt` hands back the live poll byte
unmodified — the failure is soft, playback continues with the live
value. -/
theorem claim_C9_replay_read_soft_fail (s : InputRecording)
    (d port slot bufCount bufVal : Nat)
    (hbc : 3 ≤ bufCount)
    (hint : s.m_fInterruptFrame = true)
    (hpad : (s.getPad port slot).m_state = InputRecordingMode.Replaying)
    (hfc0 : 0 ≤ s.m_frameCounter)
    (hfc1 : s.m_frameCounter < INT_MAX_32)
    (hread : s.m_inputRecordingData.ReadKeyBuffer s.m_frameCounter
        ((s.getPad port slot).m_seekOffset + u16sub3 bufCount) = none) :
    (s.ControllerInterrupt d port slot bufCount bufVal).2 = bufVal := by
  have hb1 : bufCount ≠ 1 := by omega
  have hb2 : bufCount ≠ 2 := by omega
  unfold InputRecording.ControllerInterrupt
  simp [hb1, hb2, hint, hpad, hfc0, hfc1, hread]

/-- Witness for C9: a replaying session over an empty movie file — the
fetch at frame 0 fails — polled with live byte 99. -/
theorem claim_C9_replay_read_soft_fail_witness :
    ((sessionOf InputRecordingMode.Replaying 0 50
        InputRecordingMode.Replaying).ControllerInterrupt 0 0 0 3 99).2 = 99 :=
  claim_C9_replay_read_soft_fail
    (sessionOf InputRecordingMode.Replaying 0 50 InputRecordingMode.Replaying)
    0 0 0 3 99 (by omega) rfl (by decide) (by decide) (by decide) (by decide)

end PCSX2
